import Mathlib

/-!
Verification of the study-app client (src/src/App.tsx, src/unnamed/part_001 = types.ts
and services/gemini.ts, src/unnamed/part_000 = AnalysisResult.tsx).

The React component state is embedded as an explicit record `StudyApp.AppState`; the
event handlers of App.tsx become pure state-transition functions; the browser
localStorage slot `study-app-history` is a field of the state holding the serialized
value, and the persistence `useEffect` is applied as part of each history mutation
(it fires whenever the history reference changes). The awaited collaborator calls
(`analyzeProblem`, `generateVocabulary`) are parametrized by their outcome, and the
async handlers are split at their await point: the general semantics (`asyncStep`)
interleaves the synchronous prefixes, the resolutions of in-flight calls and the
other events arbitrarily, while `stepEvent` is the run-to-completion schedule in
which each issued call resolves immediately.
-/

namespace StudyApp

/-- Subject tags, from `types.ts` (`export type Subject`). -/
inductive Subject
  | MATH
  | PHYSICS
  | CHEMISTRY
  | BIOLOGY
  | ENGLISH
deriving DecidableEq

/-- Request lifecycle status, from `types.ts` (`export const Status`). -/
inductive Status
  | IDLE
  | LOADING
  | SUCCESS
  | ERROR
deriving DecidableEq

/-- The nested practice-question object of `AnalysisResponse` (`types.ts`). -/
structure PracticeQuestion where
  question : String
  answer : String
  explanation : String
deriving DecidableEq

/-- The AI analysis response (`types.ts`, `export interface AnalysisResponse`). -/
structure AnalysisResponse where
  mistakeDiagnosis : String
  coreConcept : String
  stepByStepSolution : List String
  practiceQuestion : PracticeQuestion
deriving DecidableEq

/-- A history entry (`types.ts`, `export interface HistoryItem`).
`originalImage` is `string | null` in the source (absent is serialized as null). -/
structure HistoryItem where
  id : String
  timestamp : Nat
  subject : Subject
  originalProblem : String
  originalImage : Option String
  result : AnalysisResponse
deriving DecidableEq

/-- One vocabulary card (`types.ts`); the source field `example` is a Lean keyword,
rendered here as `exampleSentence`. -/
structure VocabularyItem where
  word : String
  pronunciation : String
  definition : String
  exampleSentence : String
deriving DecidableEq

/-- The vocabulary generation response (`types.ts`). -/
structure VocabularyResponse where
  topic : String
  words : List VocabularyItem
deriving DecidableEq

/-! ### The serialization boundary

`localStorage` holds text; `JSON.stringify`/`JSON.parse` move between text and JSON
values. We model the slot contents at the JSON-value level: a stored value is either
text that is not valid JSON (`JSON.parse` throws on it) or a well-formed JSON value. -/

/-- JSON values (timestamps are the only numbers the app serializes, so `num`
carries a natural number). -/
inductive Json
  | null
  | bool (b : Bool)
  | num (n : Nat)
  | str (s : String)
  | arr (elems : List Json)
  | obj (fields : List (String × Json))

/-- Contents of the `study-app-history` localStorage slot. -/
inductive Stored
  | malformed
  | json (j : Json)

/-- `JSON.parse` on a stored value: fails (throws) exactly on malformed text. -/
def jsonParse : Stored → Option Json
  | .malformed => none
  | .json j => some j

/-- Serialization of a subject tag (string literals of the `Subject` union). -/
def subjectToString : Subject → String
  | .MATH => "MATH"
  | .PHYSICS => "PHYSICS"
  | .CHEMISTRY => "CHEMISTRY"
  | .BIOLOGY => "BIOLOGY"
  | .ENGLISH => "ENGLISH"

/-- Reading a subject tag back from its serialized form. -/
def subjectOfString (s : String) : Option Subject :=
  if s = "MATH" then some .MATH
  else if s = "PHYSICS" then some .PHYSICS
  else if s = "CHEMISTRY" then some .CHEMISTRY
  else if s = "BIOLOGY" then some .BIOLOGY
  else if s = "ENGLISH" then some .ENGLISH
  else none

/-- `JSON.stringify` of a `string | null` value. -/
def encodeNullableString : Option String → Json
  | none => .null
  | some s => .str s

/-- Reading a `string | null` value back. -/
def decodeNullableString : Json → Option (Option String)
  | .null => some none
  | .str s => some (some s)
  | _ => none

/-- `JSON.stringify` of the practice-question object (insertion order of `types.ts`). -/
def encodePractice (p : PracticeQuestion) : Json :=
  .obj [("question", .str p.question), ("answer", .str p.answer),
        ("explanation", .str p.explanation)]

/-- Reading the practice-question object back. -/
def decodePractice : Json → Option PracticeQuestion
  | .obj [("question", .str q), ("answer", .str a), ("explanation", .str e)] =>
      some ⟨q, a, e⟩
  | _ => none

/-- Reading a JSON array of strings back. -/
def decodeStringList : List Json → Option (List String)
  | [] => some []
  | .str s :: rest => (decodeStringList rest).map (s :: ·)
  | _ => none

/-- `JSON.stringify` of an `AnalysisResponse`. -/
def encodeResponse (r : AnalysisResponse) : Json :=
  .obj [("mistakeDiagnosis", .str r.mistakeDiagnosis),
        ("coreConcept", .str r.coreConcept),
        ("stepByStepSolution", .arr (r.stepByStepSolution.map .str)),
        ("practiceQuestion", encodePractice r.practiceQuestion)]

/-- Reading an `AnalysisResponse` back. -/
def decodeResponse : Json → Option AnalysisResponse
  | .obj [("mistakeDiagnosis", .str m), ("coreConcept", .str c),
          ("stepByStepSolution", .arr steps), ("practiceQuestion", pq)] =>
      match decodeStringList steps, decodePractice pq with
      | some ss, some p => some ⟨m, c, ss, p⟩
      | _, _ => none
  | _ => none

/-- `JSON.stringify` of a `HistoryItem` (field insertion order of App.tsx lines 94-101). -/
def encodeItem (it : HistoryItem) : Json :=
  .obj [("id", .str it.id), ("timestamp", .num it.timestamp),
        ("subject", .str (subjectToString it.subject)),
        ("originalProblem", .str it.originalProblem),
        ("originalImage", encodeNullableString it.originalImage),
        ("result", encodeResponse it.result)]

/-- Reading a `HistoryItem` back. -/
def decodeItem : Json → Option HistoryItem
  | .obj [("id", .str id), ("timestamp", .num ts), ("subject", .str subj),
          ("originalProblem", .str p), ("originalImage", oi), ("result", res)] =>
      match subjectOfString subj, decodeNullableString oi, decodeResponse res with
      | some sb, some img, some r => some ⟨id, ts, sb, p, img, r⟩
      | _, _, _ => none
  | _ => none

/-- Reading a list of history items back, failing if any element fails. -/
def decodeItems : List Json → Option (List HistoryItem)
  | [] => some []
  | j :: rest =>
      match decodeItem j, decodeItems rest with
      | some it, some its => some (it :: its)
      | _, _ => none

/-- `JSON.stringify(history)`: the persisted layout is a JSON array of items. -/
def encodeHistory (l : List HistoryItem) : Json :=
  .arr (l.map encodeItem)

/-- Reading the whole persisted history back. -/
def decodeHistory : Json → Option (List HistoryItem)
  | .arr items => decodeItems items
  | _ => none

/-- The history `useState` initializer (App.tsx lines 41-49): absent slot gives `[]`;
a `JSON.parse` failure is caught and gives `[]`; otherwise the parsed value is read
into the typed representation (the source casts it unchecked; values outside the
typed domain are read as `[]`). -/
def loadHistory : Option Stored → List HistoryItem
  | none => []
  | some st =>
      match jsonParse st with
      | none => []
      | some j => (decodeHistory j).getD []

theorem subjectOfString_toString (sb : Subject) :
    subjectOfString (subjectToString sb) = some sb := by
  cases sb <;> rfl

theorem decodeNullableString_encode (x : Option String) :
    decodeNullableString (encodeNullableString x) = some x := by
  cases x <;> rfl

theorem decodePractice_encode (p : PracticeQuestion) :
    decodePractice (encodePractice p) = some p := by
  cases p
  rfl

theorem decodeStringList_map_str (l : List String) :
    decodeStringList (l.map Json.str) = some l := by
  induction l with
  | nil => rfl
  | cons s rest ih => simp [decodeStringList, ih]

theorem decodeResponse_encode (r : AnalysisResponse) :
    decodeResponse (encodeResponse r) = some r := by
  cases r with
  | mk m c ss p =>
      simp [encodeResponse, decodeResponse, decodeStringList_map_str,
        decodePractice_encode]

theorem decodeItem_encode (it : HistoryItem) :
    decodeItem (encodeItem it) = some it := by
  cases it with
  | mk id ts sb p oi r =>
      simp [encodeItem, decodeItem, subjectOfString_toString,
        decodeNullableString_encode, decodeResponse_encode]

theorem decodeHistory_encode (l : List HistoryItem) :
    decodeHistory (encodeHistory l) = some l := by
  suffices h : decodeItems (l.map encodeItem) = some l by
    simpa [encodeHistory, decodeHistory] using h
  induction l with
  | nil => rfl
  | cons it rest ih => simp [decodeItems, decodeItem_encode, ih]

/-- Loading what the persistence effect just wrote recovers the in-memory list. -/
theorem loadHistory_encode (l : List HistoryItem) :
    loadHistory (some (.json (encodeHistory l))) = l := by
  simp [loadHistory, jsonParse, decodeHistory_encode]

/-! ### Application state and event handlers (App.tsx) -/

/-- The component state of `App` (useState hooks, App.tsx lines 24-49), together with
the `study-app-history` localStorage slot.  `activeTab` is pure navigation and is not
modeled. -/
structure AppState where
  subject : Subject
  inputText : String
  selectedImage : Option String
  status : Status
  result : Option AnalysisResponse
  errorMsg : Option String
  vocabTopic : String
  vocabStatus : Status
  vocabResult : Option VocabularyResponse
  revealedWords : Finset Nat
  history : List HistoryItem
  storage : Option Stored

/-- JavaScript truthiness of a `string | null` value: `null` and `""` are falsy. -/
def jsTruthy : Option String → Bool
  | none => false
  | some s => !(s == "")

/-- `x || null` on a `string | null` value (App.tsx line 151). -/
def jsOrNull (x : Option String) : Option String :=
  if jsTruthy x then x else none

/-- The persistence `useEffect` (App.tsx lines 52-58): writes
`JSON.stringify(history)` into the slot; runs whenever the history reference
changes (and once on mount).  The quota-exceeded catch is not modeled: the write
is taken to succeed. -/
def persistHistory (s : AppState) : AppState :=
  { s with storage := some (.json (encodeHistory s.history)) }

/-- The user-facing message set by the catch branch of `handleSubmit` (App.tsx 107). -/
def analysisErrorText : String := "分析失败，请稍后重试。可能网络不稳定或图片过大。"

/-- Outcome of the awaited `analyzeProblem` call: a well-formed response plus the
`Date.now()` value observed when the history record is built (the two `Date.now()`
calls on lines 95-96 are modeled as one observation), or a thrown error. -/
inductive AnalyzeOutcome
  | ok (data : AnalysisResponse) (now : Nat)
  | error

/-- Outcome of the awaited `generateVocabulary` call. -/
inductive VocabOutcome
  | ok (data : VocabularyResponse)
  | error

/-- The guard of `handleSubmit` (App.tsx line 82): `!inputText && !selectedImage`. -/
def analyzeGuardFails (s : AppState) : Bool :=
  (s.inputText == "") && !(jsTruthy s.selectedImage)

/-- The history record built on a successful analysis (App.tsx lines 94-101):
`id` is `Date.now().toString()`, i.e. the decimal digits of the timestamp. -/
def mkHistoryItem (now : Nat) (subj : Subject) (text : String) (img : Option String)
    (data : AnalysisResponse) : HistoryItem :=
  { id := Nat.repr now, timestamp := now, subject := subj, originalProblem := text,
    originalImage := img, result := data }

/-- Synchronous prefix of `handleSubmit` once the guard has passed (App.tsx 84-86). -/
def handleSubmitStart (s : AppState) : AppState :=
  { s with status := .LOADING, result := none, errorMsg := none }

/-- Continuation of `handleSubmit` after the awaited call (App.tsx 88-108); on
success the `setHistory` prepend triggers the persistence effect. -/
def handleSubmitResolve (o : AnalyzeOutcome) (s : AppState) : AppState :=
  match o with
  | .ok data now =>
      let item := mkHistoryItem now s.subject s.inputText s.selectedImage data
      persistHistory
        { s with result := some data, status := .SUCCESS, history := item :: s.history }
  | .error => { s with status := .ERROR, errorMsg := some analysisErrorText }

/-- `handleSubmit` (App.tsx lines 81-109) run to completion with outcome `o`. -/
def handleSubmit (o : AnalyzeOutcome) (s : AppState) : AppState :=
  if analyzeGuardFails s then s else handleSubmitResolve o (handleSubmitStart s)

/-- Synchronous prefix of `handleVocabSubmit` once its guard has passed
(App.tsx 114-116). -/
def handleVocabSubmitStart (s : AppState) : AppState :=
  { s with vocabStatus := .LOADING, vocabResult := none, revealedWords := ∅ }

/-- Continuation of `handleVocabSubmit` after the awaited call (App.tsx 118-125). -/
def handleVocabSubmitResolve (o : VocabOutcome) (s : AppState) : AppState :=
  match o with
  | .ok data => { s with vocabResult := some data, vocabStatus := .SUCCESS }
  | .error => { s with vocabStatus := .ERROR }

/-- `handleVocabSubmit` (App.tsx lines 111-126): guard `!vocabTopic`. -/
def handleVocabSubmit (o : VocabOutcome) (s : AppState) : AppState :=
  if s.vocabTopic == "" then s
  else handleVocabSubmitResolve o (handleVocabSubmitStart s)

/-- `toggleWordReveal` (App.tsx lines 128-136). -/
def toggleWordReveal (index : Nat) (s : AppState) : AppState :=
  if index ∈ s.revealedWords then { s with revealedWords := s.revealedWords.erase index }
  else { s with revealedWords := insert index s.revealedWords }

/-- `toggleAllWords` (App.tsx lines 138-145): compares the reveal-set's size with
the word count; `new Set(words.map((_, i) => i))` is `Finset.range n`. -/
def toggleAllWords (s : AppState) : AppState :=
  match s.vocabResult with
  | none => s
  | some vr =>
      if s.revealedWords.card = vr.words.length then { s with revealedWords := ∅ }
      else { s with revealedWords := Finset.range vr.words.length }

/-- `loadHistoryItem` (App.tsx lines 148-156); the scroll call is not modeled. -/
def loadHistoryItem (item : HistoryItem) (s : AppState) : AppState :=
  { s with subject := item.subject, inputText := item.originalProblem,
           selectedImage := jsOrNull item.originalImage,
           result := some item.result, status := .SUCCESS }

/-- `deleteHistoryItem` (App.tsx lines 158-163); `confirmed` is the answer of the
`window.confirm` dialog.  The filter keeps every record whose id differs. -/
def deleteHistoryItem (confirmed : Bool) (id : String) (s : AppState) : AppState :=
  if confirmed then
    persistHistory { s with history := s.history.filter (fun item => item.id != id) }
  else s

/-- `clearHistory` (App.tsx lines 165-169). -/
def clearHistory (confirmed : Bool) (s : AppState) : AppState :=
  if confirmed then persistHistory { s with history := [] } else s

/-- `setInputText` via the textarea (App.tsx 250). -/
def setInputText (t : String) (s : AppState) : AppState := { s with inputText := t }

/-- `handleImageUpload` after the FileReader finishes (App.tsx 63-72). -/
def uploadImage (dataUrl : String) (s : AppState) : AppState :=
  { s with selectedImage := some dataUrl }

/-- `removeImage` (App.tsx 74-79). -/
def removeImage (s : AppState) : AppState := { s with selectedImage := none }

/-- `setVocabTopic` via the topic input (App.tsx 357). -/
def setVocabTopic (t : String) (s : AppState) : AppState := { s with vocabTopic := t }

/-- `setSubject` via the subject selector (App.tsx 228). -/
def setSubject (subj : Subject) (s : AppState) : AppState := { s with subject := subj }

/-- The `disabled` attribute of the analysis submit button (App.tsx line 276). -/
def analyzeSubmitDisabled (s : AppState) : Bool :=
  (s.status == Status.LOADING) || analyzeGuardFails s

/-- The `disabled` attribute of the vocabulary submit button (App.tsx line 364). -/
def vocabSubmitDisabled (s : AppState) : Bool :=
  (s.vocabStatus == Status.LOADING) || (s.vocabTopic == "")

/-- The user events whose handlers are fully synchronous (no await point).
A click on a delete/clear button asks `window.confirm` first; word cards exist
only for the indices of the current result (App.tsx 389), the toggle-all button
only when a result is shown (App.tsx 372), and load buttons only for items of the
rendered history. -/
inductive UiEvent
  | toggleWord (index : Nat)
  | toggleAllClick
  | loadItemClick (item : HistoryItem)
  | deleteItemClick (confirmed : Bool) (id : String)
  | clearClick (confirmed : Bool)
  | textInput (t : String)
  | imageUpload (dataUrl : String)
  | imageRemove
  | topicInput (t : String)
  | subjectClick (subj : Subject)

/-- Delivery of one synchronous event to the page. -/
def uiStep (e : UiEvent) (s : AppState) : AppState :=
  match e with
  | .toggleWord index =>
      match s.vocabResult with
      | some vr => if index < vr.words.length then toggleWordReveal index s else s
      | none => s
  | .toggleAllClick => toggleAllWords s
  | .loadItemClick item => if item ∈ s.history then loadHistoryItem item s else s
  | .deleteItemClick confirmed id => deleteHistoryItem confirmed id s
  | .clearClick confirmed => clearHistory confirmed s
  | .textInput t => setInputText t s
  | .imageUpload dataUrl => uploadImage dataUrl s
  | .imageRemove => removeImage s
  | .topicInput t => setVocabTopic t s
  | .subjectClick subj => setSubject subj s

/-- User events under the run-to-completion schedule: each submit event carries
the outcome its collaborator call will resolve with, and the resolution is
applied immediately after the synchronous prefix (no other event intervenes at
the await point).  The general interleaving semantics is `asyncStep` below;
`stepEvent_run_to_completion` lemmas connect the two. -/
inductive Event
  | analyzeClick (o : AnalyzeOutcome)
  | vocabClick (o : VocabOutcome)
  | vocabEnterKey (o : VocabOutcome)
  | ui (e : UiEvent)

/-- One event delivered to the page, run to completion.  A click on a disabled
button does nothing; the vocabulary topic input is never disabled, so its Enter
key always reaches `handleVocabSubmit` (App.tsx line 360). -/
def stepEvent (e : Event) (s : AppState) : AppState :=
  match e with
  | .analyzeClick o => if analyzeSubmitDisabled s then s else handleSubmit o s
  | .vocabClick o => if vocabSubmitDisabled s then s else handleVocabSubmit o s
  | .vocabEnterKey o => handleVocabSubmit o s
  | .ui e => uiStep e s

/-- Does delivering `e` to `s` issue a new collaborator request (a call to
`analyzeProblem` or `generateVocabulary`)?  A call is issued exactly when the
handler runs and its guard passes. -/
def startsRequest (e : Event) (s : AppState) : Bool :=
  match e with
  | .analyzeClick _ => !analyzeSubmitDisabled s && !analyzeGuardFails s
  | .vocabClick _ => !vocabSubmitDisabled s && !(s.vocabTopic == "")
  | .vocabEnterKey _ => !(s.vocabTopic == "")
  | _ => false

/-- The state after mount with localStorage slot `st0`: the useState initializers
(App.tsx 24-49) followed by the first run of the persistence effect (52-58). -/
def initState (st0 : Option Stored) : AppState :=
  persistHistory
    { subject := .MATH, inputText := "", selectedImage := none, status := .IDLE,
      result := none, errorMsg := none, vocabTopic := "", vocabStatus := .IDLE,
      vocabResult := none, revealedWords := ∅, history := loadHistory st0,
      storage := st0 }

/-! ### The general asynchronous semantics

Each async handler is split at its await point: a begin event runs the guard and
the synchronous prefix and issues the collaborator call; a resolve event applies
the continuation of one in-flight call.  Between begin and resolve any other
events may be delivered — this is where the source can interleave (e.g. the
Enter key reaching `handleVocabSubmit` while a vocabulary request is already in
flight, or a stale response landing after later user actions). -/

/-- The component state together with the numbers of in-flight collaborator
calls of each kind. -/
structure AsyncState where
  app : AppState
  pendingAnalysis : Nat
  pendingVocab : Nat

/-- Events of the interleaving semantics. -/
inductive AsyncEvent
  | analyzeBeginClick
  | analyzeResolve (o : AnalyzeOutcome)
  | vocabBeginClick
  | vocabBeginEnter
  | vocabResolve (o : VocabOutcome)
  | ui (e : UiEvent)

/-- One event of the interleaving semantics.  Begin events run the guards and
synchronous prefixes of App.tsx 81-86 / 111-116 and issue the call; resolve
events apply the post-await continuation (App.tsx 88-108 / 118-125) of one
in-flight call and are only deliverable while a call is in flight. -/
def asyncStep (e : AsyncEvent) (t : AsyncState) : AsyncState :=
  match e with
  | .analyzeBeginClick =>
      if analyzeSubmitDisabled t.app then t
      else if analyzeGuardFails t.app then t
      else ⟨handleSubmitStart t.app, t.pendingAnalysis + 1, t.pendingVocab⟩
  | .analyzeResolve o =>
      if t.pendingAnalysis = 0 then t
      else ⟨handleSubmitResolve o t.app, t.pendingAnalysis - 1, t.pendingVocab⟩
  | .vocabBeginClick =>
      if vocabSubmitDisabled t.app then t
      else if t.app.vocabTopic == "" then t
      else ⟨handleVocabSubmitStart t.app, t.pendingAnalysis, t.pendingVocab + 1⟩
  | .vocabBeginEnter =>
      if t.app.vocabTopic == "" then t
      else ⟨handleVocabSubmitStart t.app, t.pendingAnalysis, t.pendingVocab + 1⟩
  | .vocabResolve o =>
      if t.pendingVocab = 0 then t
      else ⟨handleVocabSubmitResolve o t.app, t.pendingAnalysis, t.pendingVocab - 1⟩
  | .ui e => ⟨uiStep e t.app, t.pendingAnalysis, t.pendingVocab⟩

/-- The mounted state: no call is in flight. -/
def asyncInit (st0 : Option Stored) : AsyncState := ⟨initState st0, 0, 0⟩

/-- A sequence of interleaving-semantics events, oldest first. -/
def asyncRun (es : List AsyncEvent) (t : AsyncState) : AsyncState :=
  es.foldl (fun u e => asyncStep e u) t

/-- States the app can be in: a mount followed by any interleaving of event
deliveries and call resolutions. -/
inductive AsyncReachable : AsyncState → Prop
  | mount (st0 : Option Stored) : AsyncReachable (asyncInit st0)
  | next (e : AsyncEvent) {t : AsyncState} :
      AsyncReachable t → AsyncReachable (asyncStep e t)

theorem asyncReachable_run (es : List AsyncEvent) {t : AsyncState}
    (h : AsyncReachable t) : AsyncReachable (asyncRun es t) := by
  induction es generalizing t with
  | nil => exact h
  | cons e es ih => exact ih (AsyncReachable.next e h)

/-- `stepEvent` on an analysis click is the schedule of the general semantics in
which the issued call resolves immediately. -/
theorem stepEvent_run_to_completion_analyze (o : AnalyzeOutcome) (t : AsyncState)
    (h : t.pendingAnalysis = 0) :
    (asyncStep (.analyzeResolve o) (asyncStep .analyzeBeginClick t)).app =
      stepEvent (.analyzeClick o) t.app := by
  by_cases hd : analyzeSubmitDisabled t.app = true
  · simp [asyncStep, stepEvent, hd, h]
  · have hg : analyzeGuardFails t.app = false := by
      simp [analyzeSubmitDisabled] at hd
      exact hd.2
    simp [asyncStep, stepEvent, hd, hg, handleSubmit]

/-- `stepEvent` on an Enter keypress in the topic input is the schedule of the
general semantics in which the issued call resolves immediately. -/
theorem stepEvent_run_to_completion_vocabEnter (o : VocabOutcome) (t : AsyncState)
    (h : t.pendingVocab = 0) :
    (asyncStep (.vocabResolve o) (asyncStep .vocabBeginEnter t)).app =
      stepEvent (.vocabEnterKey o) t.app := by
  by_cases hg : (t.app.vocabTopic == "") = true
  · simp [asyncStep, stepEvent, hg, h, handleVocabSubmit]
  · simp [asyncStep, stepEvent, hg, handleVocabSubmit]

/-! ### `Date.now().toString()` ids: injectivity of `Nat.repr` -/

/-- The decimal digit characters of `n`, most significant first. -/
def decChars (n : Nat) : List Char :=
  if _h : n < 10 then [Nat.digitChar n]
  else decChars (n / 10) ++ [Nat.digitChar (n % 10)]
  decreasing_by exact Nat.div_lt_self (by omega) (by omega)

theorem decChars_lt {n : Nat} (h : n < 10) : decChars n = [Nat.digitChar n] := by
  unfold decChars
  simp [h]

theorem decChars_ge {n : Nat} (h : ¬ n < 10) :
    decChars n = decChars (n / 10) ++ [Nat.digitChar (n % 10)] := by
  conv_lhs => unfold decChars
  simp [h]

theorem toDigitsCore_eq_decChars (f : Nat) :
    ∀ (n : Nat) (ds : List Char), n < f →
      Nat.toDigitsCore 10 f n ds = decChars n ++ ds := by
  induction f with
  | zero => intro n ds h; omega
  | succ f ih =>
      intro n ds h
      simp only [Nat.toDigitsCore]
      by_cases h10 : n / 10 = 0
      · have hn : n < 10 := by omega
        have hm : n % 10 = n := Nat.mod_eq_of_lt hn
        simp [h10, hm, decChars_lt hn]
      · have hge : ¬ n < 10 := by omega
        have hlt : n / 10 < f := by
          have := Nat.div_lt_self (show 0 < n by omega) (show 1 < 10 by omega)
          omega
        rw [if_neg h10, ih (n / 10) _ hlt, decChars_ge hge, List.append_assoc]
        rfl

theorem repr_eq_decChars (n : Nat) : Nat.repr n = (decChars n).asString := by
  show (Nat.toDigits 10 n).asString = _
  rw [Nat.toDigits, toDigitsCore_eq_decChars (n + 1) n [] (Nat.lt_succ_self n),
    List.append_nil]

/-- Numeric value of a decimal digit character. -/
def digitVal (c : Char) : Nat := c.toNat - '0'.toNat

theorem digitVal_digitChar {m : Nat} (h : m < 10) :
    digitVal (Nat.digitChar m) = m := by
  interval_cases m <;> rfl

/-- Value of a most-significant-first decimal digit string. -/
def valChars (l : List Char) : Nat := l.foldl (fun a c => 10 * a + digitVal c) 0

theorem valChars_append_singleton (l : List Char) (c : Char) :
    valChars (l ++ [c]) = 10 * valChars l + digitVal c := by
  simp [valChars, List.foldl_append]

theorem valChars_decChars (n : Nat) : valChars (decChars n) = n := by
  induction n using Nat.strong_induction_on with
  | _ n ih =>
      by_cases h : n < 10
      · rw [decChars_lt h]
        simp [valChars, digitVal_digitChar h]
      · rw [decChars_ge h, valChars_append_singleton,
          ih (n / 10) (Nat.div_lt_self (by omega) (by omega)),
          digitVal_digitChar (Nat.mod_lt _ (by omega))]
        omega

theorem natRepr_injective : Function.Injective Nat.repr := by
  intro m n h
  rw [repr_eq_decChars, repr_eq_decChars] at h
  have h2 : decChars m = decChars n := congrArg String.data h
  calc m = valChars (decChars m) := (valChars_decChars m).symm
    _ = valChars (decChars n) := by rw [h2]
    _ = n := valChars_decChars n

/-! ### Sequences of analysis submissions -/

/-- A sequence of analysis submissions run to completion, oldest first. -/
def submitAll (os : List AnalyzeOutcome) (s : AppState) : AppState :=
  os.foldl (fun t o => handleSubmit o t) s

/-- The records the submissions in `os` create, in submission order (failed calls
create none).  The session fields they are built from are those of `s`: the
submissions do not change subject, text or image. -/
def createdRecords (s : AppState) (os : List AnalyzeOutcome) : List HistoryItem :=
  os.filterMap fun o =>
    match o with
    | .ok data now =>
        some (mkHistoryItem now s.subject s.inputText s.selectedImage data)
    | .error => none

/-- The `Date.now()` values observed by the successful submissions in `os`. -/
def okTimes (os : List AnalyzeOutcome) : List Nat :=
  os.filterMap fun o =>
    match o with
    | .ok _ now => some now
    | .error => none

theorem handleSubmit_fields (o : AnalyzeOutcome) (s : AppState) :
    (handleSubmit o s).subject = s.subject ∧
    (handleSubmit o s).inputText = s.inputText ∧
    (handleSubmit o s).selectedImage = s.selectedImage := by
  unfold handleSubmit
  split
  · exact ⟨rfl, rfl, rfl⟩
  · cases o <;>
      simp [handleSubmitResolve, handleSubmitStart, persistHistory]

theorem analyzeGuardFails_handleSubmit (o : AnalyzeOutcome) (s : AppState) :
    analyzeGuardFails (handleSubmit o s) = analyzeGuardFails s := by
  obtain ⟨-, h2, h3⟩ := handleSubmit_fields o s
  unfold analyzeGuardFails
  rw [h2, h3]

theorem createdRecords_handleSubmit (o : AnalyzeOutcome) (s : AppState)
    (os : List AnalyzeOutcome) :
    createdRecords (handleSubmit o s) os = createdRecords s os := by
  obtain ⟨h1, h2, h3⟩ := handleSubmit_fields o s
  unfold createdRecords
  simp only [h1, h2, h3]

theorem handleSubmit_ok_history (data : AnalysisResponse) (now : Nat) {s : AppState}
    (hg : analyzeGuardFails s = false) :
    (handleSubmit (.ok data now) s).history =
      mkHistoryItem now s.subject s.inputText s.selectedImage data :: s.history := by
  simp [handleSubmit, hg, handleSubmitResolve, handleSubmitStart, persistHistory]

theorem handleSubmit_error_history {s : AppState} :
    (handleSubmit .error s).history = s.history := by
  unfold handleSubmit
  split
  · rfl
  · simp [handleSubmitResolve, handleSubmitStart]

/-- Folding a sequence of submissions: the created records end up in front of the
old history, in reverse submission order. -/
theorem submitAll_history (os : List AnalyzeOutcome) (s : AppState)
    (hg : analyzeGuardFails s = false) :
    (submitAll os s).history = (createdRecords s os).reverse ++ s.history := by
  induction os generalizing s with
  | nil => simp [submitAll, createdRecords]
  | cons o os ih =>
      have hg' : analyzeGuardFails (handleSubmit o s) = false := by
        rw [analyzeGuardFails_handleSubmit, hg]
      have hstep : (submitAll (o :: os) s) = submitAll os (handleSubmit o s) := by
        simp [submitAll]
      rw [hstep, ih (handleSubmit o s) hg', createdRecords_handleSubmit]
      cases o with
      | ok data now =>
          rw [handleSubmit_ok_history data now hg]
          simp [createdRecords, List.filterMap_cons]
      | error =>
          rw [handleSubmit_error_history]
          simp [createdRecords, List.filterMap_cons]

/-- The ids of the created records are the decimal strings of the observed times. -/
theorem createdRecords_ids (s : AppState) (os : List AnalyzeOutcome) :
    (createdRecords s os).map (fun it => it.id) = (okTimes os).map Nat.repr := by
  induction os with
  | nil => rfl
  | cons o os ih =>
      cases o <;>
        simp [createdRecords, okTimes, mkHistoryItem, List.filterMap_cons] at ih ⊢ <;>
        exact ih

/-! ### The delete filter -/

/-- The remove operation as the spec words it: "deletes the first record whose
identifier matches" (spec §4.1), for comparison with the source's
`deleteHistoryItem`. -/
def specRemoveFirst (id : String) (l : List HistoryItem) : List HistoryItem :=
  l.eraseP (fun item => item.id == id)

theorem filter_ne_id_eq_self {id : String} {l : List HistoryItem}
    (h : ∀ it ∈ l, it.id ≠ id) :
    l.filter (fun it => it.id != id) = l := by
  apply List.filter_eq_self.mpr
  intro b hb
  simpa [bne_iff_ne] using h b hb

theorem filter_ne_id_idem (id : String) (l : List HistoryItem) :
    (l.filter (fun it => it.id != id)).filter (fun it => it.id != id) =
      l.filter (fun it => it.id != id) := by
  rw [List.filter_filter]
  simp

/-- When ids are unique, removing all matches is removing the first match. -/
theorem filter_ne_id_eq_eraseP {id : String} {l : List HistoryItem}
    (h : (l.map (fun it => it.id)).Nodup) :
    l.filter (fun it => it.id != id) = specRemoveFirst id l := by
  induction l with
  | nil => rfl
  | cons a t ih =>
      simp only [List.map_cons, List.nodup_cons] at h
      by_cases ha : a.id = id
      · have hbne : (a.id != id) = false := by simp [ha]
        have hbeq : (a.id == id) = true := by simp [ha]
        rw [List.filter_cons, specRemoveFirst, List.eraseP_cons, hbne, hbeq,
          if_neg (show ¬ (false = true) by simp), cond_true]
        apply filter_ne_id_eq_self
        intro b hb hbid
        have hmem : b.id ∈ t.map (fun it => it.id) := List.mem_map_of_mem _ hb
        rw [hbid, ← ha] at hmem
        exact h.1 hmem
      · have hbne : (a.id != id) = true := by simpa [bne_iff_ne] using ha
        have hbeq : (a.id == id) = false := by simpa using ha
        rw [List.filter_cons, specRemoveFirst, List.eraseP_cons, hbne, hbeq,
          if_pos rfl, cond_false, ih h.2]
        rfl

/-! ### Concrete data for witnesses and counterexamples -/

def samplePractice : PracticeQuestion :=
  { question := "求 2x+1=5 的解", answer := "x=2", explanation := "移项后除以 2" }

def sampleResponse : AnalysisResponse :=
  { mistakeDiagnosis := "移项时符号出错", coreConcept := "一元一次方程",
    stepByStepSolution := ["移项", "合并同类项", "系数化为 1"],
    practiceQuestion := samplePractice }

/-- A state ready to submit: non-empty question text, freshly mounted app. -/
def sReady : AppState := setInputText "这道题怎么做" (initState none)

def dupFirst : HistoryItem := mkHistoryItem 7 .MATH "第一条" none sampleResponse

def dupSecond : HistoryItem := mkHistoryItem 7 .PHYSICS "第二条" none sampleResponse

/-- A state whose history holds two records sharing the id "7". -/
def sDup : AppState := { initState none with history := [dupFirst, dupSecond] }

/-- A state whose history holds one record, with id "7". -/
def sUnique : AppState := { initState none with history := [dupFirst] }

/-- The vocabulary session mid-flight: topic entered, request issued, response
still pending (the synchronous prefix of handleVocabSubmit has run). -/
def sVocabRequesting : AppState :=
  handleVocabSubmitStart (setVocabTopic "环保" (initState none))

/-- Both sessions mid-flight at once (allowed: the sessions are independent). -/
def sBothRequesting : AppState :=
  handleSubmitStart (handleVocabSubmitStart
    (setVocabTopic "环保" (setInputText "题目" (initState none))))

def vocab6 : VocabularyResponse :=
  { topic := "旅行",
    words := [⟨"journey", "ˈdʒɜːni", "旅行", "The journey took three days."⟩,
              ⟨"luggage", "ˈlʌɡɪdʒ", "行李", "Check your luggage here."⟩,
              ⟨"destination", "ˌdestɪˈneɪʃn", "目的地", "We reached the destination."⟩,
              ⟨"passport", "ˈpɑːspɔːt", "护照", "Show me your passport."⟩,
              ⟨"departure", "dɪˈpɑːtʃə", "出发", "The departure was delayed."⟩,
              ⟨"souvenir", "ˌsuːvəˈnɪə", "纪念品", "She bought a souvenir."⟩] }

/-- A state showing a 6-entry vocabulary result with nothing revealed. -/
def sVocabSix : AppState :=
  stepEvent (.vocabClick (.ok vocab6))
    (stepEvent (.ui (.topicInput "旅行")) (initState none))

def vocab5 : VocabularyResponse :=
  { topic := "旅行",
    words := [⟨"trip", "trɪp", "旅程", "The trip was short."⟩,
              ⟨"ticket", "ˈtɪkɪt", "票", "Buy a ticket first."⟩,
              ⟨"hotel", "həʊˈtel", "旅馆", "The hotel was full."⟩,
              ⟨"guide", "ɡaɪd", "向导", "The guide led the way."⟩,
              ⟨"abroad", "əˈbrɔːd", "在国外", "She studied abroad."⟩] }

/-- The stale-response scenario, as an explicit trace of the interleaving
semantics: the topic is entered; Enter issues a request; Enter is pressed again
mid-flight (reachable because the topic input is never disabled and
`handleVocabSubmit` has no LOADING guard); the first response (6 words) lands;
the user reveals cards 1-5; then the second, stale response (5 words) lands —
`setRevealedWords(new Set())` ran before the await (App.tsx 116), never at
resolution, so the reveal-set {1,2,3,4,5} survives against the new 5-word
result. -/
def staleTrace : List AsyncEvent :=
  [.ui (.topicInput "旅行"),
   .vocabBeginEnter,
   .vocabBeginEnter,
   .vocabResolve (.ok vocab6),
   .ui (.toggleWord 1), .ui (.toggleWord 2), .ui (.toggleWord 3),
   .ui (.toggleWord 4), .ui (.toggleWord 5),
   .vocabResolve (.ok vocab5)]

/-- The state the stale-response trace ends in. -/
def sStale : AsyncState := asyncRun staleTrace (asyncInit none)

/-- A state displaying a previously loaded successful result. -/
def sWithResult : AppState := loadHistoryItem dupFirst (initState none)

/-! ### The claims -/

/-- C1: each successful analysis submission inserts the new record at the front of
the in-memory history, and any sequence of submissions yields exactly the created
records, newest first (the last appended is the first element), prepended to the
prior history with no deduplication. -/
theorem history_prepend_newest_first (s : AppState)
    (hg : analyzeGuardFails s = false) :
    (∀ data now, (handleSubmit (.ok data now) s).history =
      mkHistoryItem now s.subject s.inputText s.selectedImage data :: s.history) ∧
    (∀ os, (submitAll os s).history = (createdRecords s os).reverse ++ s.history) :=
  ⟨fun data now => handleSubmit_ok_history data now hg,
   fun os => submitAll_history os s hg⟩

/-- C1 witness: a concrete submission sequence (success, failure, success). -/
theorem history_prepend_newest_first_witness :
    analyzeGuardFails sReady = false ∧
    (submitAll [.ok sampleResponse 5, .error, .ok sampleResponse 7] sReady).history =
      (createdRecords sReady
        [.ok sampleResponse 5, .error, .ok sampleResponse 7]).reverse
        ++ sReady.history ∧
    (submitAll [.ok sampleResponse 5, .error, .ok sampleResponse 7]
        sReady).history.map (fun it => it.timestamp) = [7, 5] :=
  ⟨rfl, (history_prepend_newest_first sReady rfl).2 _, by decide⟩

/-- C2: after each history-mutating operation — append on success, confirmed
delete, confirmed clear — reading the persisted slot back yields exactly the
in-memory history (write-through, no gap visible to further reads). -/
theorem persistence_write_through (s : AppState) :
    (∀ data now, analyzeGuardFails s = false →
      loadHistory (handleSubmit (.ok data now) s).storage =
        (handleSubmit (.ok data now) s).history) ∧
    (∀ id, loadHistory (deleteHistoryItem true id s).storage =
      (deleteHistoryItem true id s).history) ∧
    loadHistory (clearHistory true s).storage = (clearHistory true s).history := by
  refine ⟨?_, ?_, ?_⟩
  · intro data now hg
    simp [handleSubmit, hg, handleSubmitResolve, handleSubmitStart, persistHistory,
      loadHistory_encode]
  · intro id
    simp [deleteHistoryItem, persistHistory, loadHistory_encode]
  · simp [clearHistory, persistHistory, loadHistory_encode]

/-- C2 witness: the three mutating operations at a concrete state. -/
theorem persistence_write_through_witness :
    loadHistory (handleSubmit (.ok sampleResponse 5) sReady).storage =
      (handleSubmit (.ok sampleResponse 5) sReady).history ∧
    loadHistory (deleteHistoryItem true "7" sReady).storage =
      (deleteHistoryItem true "7" sReady).history ∧
    loadHistory (clearHistory true sReady).storage =
      (clearHistory true sReady).history :=
  ⟨(persistence_write_through sReady).1 sampleResponse 5 rfl,
   (persistence_write_through sReady).2.1 "7",
   (persistence_write_through sReady).2.2⟩

/-- C3 counterexample: with two records sharing id "7", the source's filter
removes both, while deleting only the first matching record would keep the
second — `remove` does not delete just "the first record whose identifier
matches". -/
theorem remove_not_first_counterexample :
    (deleteHistoryItem true "7" sDup).history = [] ∧
    specRemoveFirst "7" sDup.history = [dupSecond] ∧
    (deleteHistoryItem true "7" sDup).history ≠ specRemoveFirst "7" sDup.history := by
  refine ⟨?_, ?_, ?_⟩ <;> decide

/-- C3 amended: `remove(id)` deletes every record whose identifier matches —
which is exactly the first match whenever ids are unique in the list — is a no-op
when no record has that identifier, and calling it twice yields the same state as
calling it once, with no error. -/
theorem remove_amended (s : AppState) (id : String) :
    ((∀ it ∈ s.history, it.id ≠ id) →
      (deleteHistoryItem true id s).history = s.history) ∧
    deleteHistoryItem true id (deleteHistoryItem true id s) =
      deleteHistoryItem true id s ∧
    ((s.history.map (fun it => it.id)).Nodup →
      (deleteHistoryItem true id s).history = specRemoveFirst id s.history) := by
  refine ⟨?_, ?_, ?_⟩
  · intro habs
    simp [deleteHistoryItem, persistHistory, filter_ne_id_eq_self habs]
  · simp [deleteHistoryItem, persistHistory, filter_ne_id_idem]
  · intro hnd
    simp [deleteHistoryItem, persistHistory, filter_ne_id_eq_eraseP hnd]

/-- C3 witness: a history with unique ids. -/
theorem remove_amended_witness :
    (deleteHistoryItem true "9" sUnique).history = sUnique.history ∧
    deleteHistoryItem true "7" (deleteHistoryItem true "7" sUnique) =
      deleteHistoryItem true "7" sUnique ∧
    (deleteHistoryItem true "7" sUnique).history =
      specRemoveFirst "7" sUnique.history :=
  ⟨(remove_amended sUnique "9").1 (by decide),
   (remove_amended sUnique "7").2.1,
   (remove_amended sUnique "7").2.2 (by decide)⟩

/-- C4 counterexample: two successful completions observing the same `Date.now()`
millisecond (0) create two records both carrying id "0": the identifiers in the
store are not pairwise distinct. -/
theorem ids_not_unique_counterexample :
    ((submitAll [.ok sampleResponse 0, .ok sampleResponse 0] sReady).history.map
      (fun it => it.id)) = ["0", "0"] ∧
    ¬ ((submitAll [.ok sampleResponse 0, .ok sampleResponse 0] sReady).history.map
      (fun it => it.id)).Nodup := by
  refine ⟨?_, ?_⟩ <;> decide

/-- C4 amended: the ids assigned by a sequence of successful completions are
pairwise distinct provided the observed `Date.now()` values are pairwise
distinct. -/
theorem ids_unique_amended (s : AppState) (os : List AnalyzeOutcome)
    (hg : analyzeGuardFails s = false) (hnow : (okTimes os).Nodup) :
    ((createdRecords s os).map (fun it => it.id)).Nodup ∧
    (submitAll os s).history = (createdRecords s os).reverse ++ s.history := by
  constructor
  · rw [createdRecords_ids]
    exact hnow.map natRepr_injective
  · exact submitAll_history os s hg

/-- C4 witness: distinct milliseconds give distinct ids. -/
theorem ids_unique_amended_witness :
    ((createdRecords sReady
      [.ok sampleResponse 5, .error, .ok sampleResponse 7]).map
        (fun it => it.id)).Nodup ∧
    (submitAll [.ok sampleResponse 5, .error, .ok sampleResponse 7] sReady).history =
      (createdRecords sReady
        [.ok sampleResponse 5, .error, .ok sampleResponse 7]).reverse
        ++ sReady.history :=
  ids_unique_amended sReady [.ok sampleResponse 5, .error, .ok sampleResponse 7]
    rfl (by decide)

/-- C5: submitting with empty question text and no image is rejected silently:
the click leaves the whole state unchanged, and so does the handler itself (no
transition, no result, history or error-message change). -/
theorem empty_submit_rejected (s : AppState) (o : AnalyzeOutcome)
    (ht : s.inputText = "") (hi : s.selectedImage = none) :
    stepEvent (.analyzeClick o) s = s ∧ handleSubmit o s = s := by
  have hg : analyzeGuardFails s = true := by
    simp [analyzeGuardFails, ht, hi, jsTruthy]
  constructor
  · simp [stepEvent, analyzeSubmitDisabled, hg]
  · simp [handleSubmit, hg]

/-- C5 witness: the freshly mounted state has empty text and no image. -/
theorem empty_submit_rejected_witness :
    stepEvent (.analyzeClick .error) (initState none) = initState none ∧
    handleSubmit .error (initState none) = initState none :=
  empty_submit_rejected (initState none) .error rfl rfl

/-- C6 counterexample: with the vocabulary session Requesting (mid-flight after
its synchronous prefix), pressing Enter in the topic input still reaches
`handleVocabSubmit`, whose guard passes: a second request is started. -/
theorem vocab_enter_while_requesting_counterexample :
    sVocabRequesting.vocabStatus = Status.LOADING ∧
    startsRequest (.vocabEnterKey .error) sVocabRequesting = true :=
  ⟨rfl, rfl⟩

/-- C6 amended: while a session is Requesting its submit button cannot start a
request (both sessions); but the vocabulary topic input's Enter key, which is
never disabled, does start a new request whenever the topic is non-empty. -/
theorem submit_disabled_while_requesting (s : AppState) :
    (s.status = Status.LOADING → ∀ o, startsRequest (.analyzeClick o) s = false) ∧
    (s.vocabStatus = Status.LOADING → ∀ o, startsRequest (.vocabClick o) s = false) ∧
    (s.vocabStatus = Status.LOADING → s.vocabTopic ≠ "" →
      ∀ o, startsRequest (.vocabEnterKey o) s = true) := by
  refine ⟨?_, ?_, ?_⟩
  · intro h o
    simp [startsRequest, analyzeSubmitDisabled, h]
  · intro h o
    simp [startsRequest, vocabSubmitDisabled, h]
  · intro h ht o
    simp [startsRequest, ht]

/-- C6 witness: both sessions mid-flight; the buttons are dead, Enter is not. -/
theorem submit_disabled_while_requesting_witness :
    startsRequest (.analyzeClick .error) sBothRequesting = false ∧
    startsRequest (.vocabClick .error) sBothRequesting = false ∧
    startsRequest (.vocabEnterKey .error) sBothRequesting = true :=
  ⟨(submit_disabled_while_requesting sBothRequesting).1 rfl .error,
   (submit_disabled_while_requesting sBothRequesting).2.1 rfl .error,
   (submit_disabled_while_requesting sBothRequesting).2.2 rfl (by decide) .error⟩

/-- C7: when the stored history fails to deserialize (`JSON.parse` throws on the
malformed text), load falls back to the empty list and mount proceeds with an
empty history; the loader is total, so no error reaches the caller. -/
theorem corrupt_history_load_empty (st : Stored) (h : jsonParse st = none) :
    loadHistory (some st) = [] ∧ (initState (some st)).history = [] := by
  cases st with
  | malformed => exact ⟨rfl, rfl⟩
  | json j => simp [jsonParse] at h

/-- C7 witness: the malformed stored value. -/
theorem corrupt_history_load_empty_witness :
    loadHistory (some .malformed) = [] ∧
    (initState (some .malformed)).history = [] :=
  corrupt_history_load_empty .malformed rfl

/-- C8: a request that ends Failed leaves the history and the persisted slot
unchanged — no record is created or persisted — sets status ERROR and carries the
user-facing message. -/
theorem failed_request_preserves_history (s : AppState)
    (hg : analyzeGuardFails s = false) :
    (handleSubmit .error s).history = s.history ∧
    (handleSubmit .error s).storage = s.storage ∧
    (handleSubmit .error s).status = Status.ERROR ∧
    (handleSubmit .error s).errorMsg = some analysisErrorText := by
  simp [handleSubmit, hg, handleSubmitResolve, handleSubmitStart]

/-- C8 witness: a failed request at a concrete ready state. -/
theorem failed_request_preserves_history_witness :
    (handleSubmit .error sReady).history = sReady.history ∧
    (handleSubmit .error sReady).storage = sReady.storage ∧
    (handleSubmit .error sReady).status = Status.ERROR ∧
    (handleSubmit .error sReady).errorMsg = some analysisErrorText :=
  failed_request_preserves_history sReady rfl

/-- C9 counterexample: the stale-response trace is reachable in the interleaving
semantics and ends showing the 5-word result with reveal-set {1,2,3,4,5} — not
full membership {0..4} — yet `toggleAllWords` empties it (its size comparison
`revealedWords.size === words.length` sees 5 = 5) instead of setting full
membership as the claim requires. -/
theorem toggleAll_not_all_or_nothing_counterexample :
    AsyncReachable sStale ∧
    sStale.app.vocabResult = some vocab5 ∧
    sStale.app.revealedWords = ({1, 2, 3, 4, 5} : Finset Nat) ∧
    sStale.app.revealedWords ≠ Finset.range vocab5.words.length ∧
    (toggleAllWords sStale.app).revealedWords = ∅ := by
  refine ⟨asyncReachable_run staleTrace (AsyncReachable.mount none), ?_, ?_, ?_, ?_⟩
  · rfl
  · decide
  · decide
  · decide

/-- C9 amended: toggleAll empties the reveal-set exactly when its size equals the
entry count, and otherwise sets full membership {0..n-1}; for every reveal-set
that only holds indices of the current result (a subset of {0..n-1} — every
reveal-set built against the current result is one) this is the claimed
all-or-nothing behavior, but a reveal-set surviving a stale response can be
emptied despite not being full. -/
theorem toggleAll_card_based (s : AppState) (vr : VocabularyResponse)
    (hvr : s.vocabResult = some vr) :
    ((toggleAllWords s).revealedWords =
      if s.revealedWords.card = vr.words.length then ∅
      else Finset.range vr.words.length) ∧
    (s.revealedWords ⊆ Finset.range vr.words.length →
      (toggleAllWords s).revealedWords =
        if s.revealedWords = Finset.range vr.words.length then ∅
        else Finset.range vr.words.length) := by
  constructor
  · unfold toggleAllWords
    rw [hvr]
    dsimp only
    by_cases hc : s.revealedWords.card = vr.words.length
    · rw [if_pos hc, if_pos hc]
    · rw [if_neg hc, if_neg hc]
  · intro hsub
    unfold toggleAllWords
    rw [hvr]
    dsimp only
    by_cases heq : s.revealedWords = Finset.range vr.words.length
    · rw [if_pos (by rw [heq, Finset.card_range]), if_pos heq]
    · have hcard : s.revealedWords.card ≠ vr.words.length := by
        intro hc
        exact heq (Finset.eq_of_subset_of_card_le hsub (by rw [hc, Finset.card_range]))
      rw [if_neg hcard, if_neg heq]

/-- C9 witness: the size-based branch at the stale state (5 of 5 revealed but not
full — emptied), and the all-or-nothing behavior at an in-range 6-entry state
with 0 revealed — toggleAll reveals all 6. -/
theorem toggleAll_card_based_witness :
    ((toggleAllWords sStale.app).revealedWords =
      if sStale.app.revealedWords.card = vocab5.words.length then ∅
      else Finset.range vocab5.words.length) ∧
    ((toggleAllWords sVocabSix).revealedWords =
      if sVocabSix.revealedWords = Finset.range vocab6.words.length then ∅
      else Finset.range vocab6.words.length) ∧
    (toggleAllWords sVocabSix).revealedWords = Finset.range 6 := by
  refine ⟨(toggleAll_card_based sStale.app vocab5 rfl).1,
    (toggleAll_card_based sVocabSix vocab6 rfl).2 (by decide), ?_⟩
  rw [(toggleAll_card_based sVocabSix vocab6 rfl).2 (by decide),
    if_neg (by decide)]
  rfl

/-- C10: an accepted submission clears the previous result and error message on
entering Requesting, so a request that then fails retains no result from any
earlier success. -/
theorem accepted_submit_clears (s : AppState) (hg : analyzeGuardFails s = false) :
    (handleSubmitStart s).result = none ∧
    (handleSubmitStart s).errorMsg = none ∧
    (handleSubmitStart s).status = Status.LOADING ∧
    (handleSubmit .error s).result = none := by
  refine ⟨rfl, rfl, rfl, ?_⟩
  simp [handleSubmit, hg, handleSubmitResolve, handleSubmitStart]

/-- C10 witness: a state showing an earlier successful result; submitting clears
it and the failure keeps it cleared. -/
theorem accepted_submit_clears_witness :
    sWithResult.result = some sampleResponse ∧
    (handleSubmitStart sWithResult).result = none ∧
    (handleSubmitStart sWithResult).errorMsg = none ∧
    (handleSubmitStart sWithResult).status = Status.LOADING ∧
    (handleSubmit .error sWithResult).result = none :=
  ⟨rfl, (accepted_submit_clears sWithResult rfl).1,
   (accepted_submit_clears sWithResult rfl).2.1,
   (accepted_submit_clears sWithResult rfl).2.2.1,
   (accepted_submit_clears sWithResult rfl).2.2.2⟩

end StudyApp
